import Mathlib

set_option maxRecDepth 16384

/-!
Shallow embedding of the `CustomColoringStoryBook` backend.

The repository bundles several revisions of the same Express server
(`src/server.js` holds two revisions separated by a document marker;
`src/unnamed/part_000`, `part_001`, `part_002` hold further revisions).
The revisions disagree on several points (fallback vs 500 on upstream
failure, `&&` vs `||` validation, clamped vs unclamped page count,
presence of the HTTP-402 short-circuit, slice/filter of prompts), so each
relevant handler revision is embedded as its own definition:

  * `generateBookA`  — `src/server.js` lines 95-242 (the "Final version"
    document: template fallback via `buildTemplateBook`).
  * `generateBookB`  — `src/server.js` lines 450-498, identical to
    `src/unnamed/part_000` lines 87-131 (the `buildPrompt` revision:
    degraded-shape fallback on parse error, 500 on outer failure).
  * `generateBookC`  — `src/unnamed/part_001` lines 37-181 (and its
    near-identical duplicate at lines 333-479): 500 on parse error,
    slice/map/filter normalization, inline template fallback in `catch`.
  * `generateImages1` — `src/server.js` lines 256-353 (Stability, 402
    short-circuit, empty-set 500).
  * `generateImages3` — `src/unnamed/part_001` lines 195-290 (Stability,
    string-or-object prompts, skip on empty prompt, 402 short-circuit).
  * `generateImages4` — `src/unnamed/part_002` lines 8-93 (Stability,
    no 402 short-circuit: every non-ok response is skipped).
  * `generateImages0` — `src/unnamed/part_000` lines 203-248 (OpenAI
    images; pushes the possibly-absent url, no empty-set check).

Modelling conventions: JS strings that may be absent are `Option String`
(JS truthiness: `none` and `some ""` are falsy); `pageCount` is modelled
as an optional integer (`none` covers an absent field or one whose
`parseInt`/`Number` conversion is `NaN`); the outcome of each external
HTTP call is an explicit parameter (a value for the single text call, a
function from the 0-based loop index for image calls); `JSON.parse` is an
explicit function parameter `String → Option ParsedBook` where it acts on
a string the embedding keeps abstract.  Request payloads sent to the
external services (headers, form fields, full prompt text) do not affect
control flow or the HTTP response and are not recorded, except where a
claim is about them.  The list of 0-based loop indices at which an
external image call is actually issued is returned alongside the HTTP
response in `ImagesRun.calls`.
-/

namespace ColoringBook

/-- One page's illustration prompt in the normalized book. -/
structure PagePrompt where
  page : Int
  prompt : String
deriving DecidableEq

/-- A raw `prompts` entry as found in the model's JSON output: both
fields may be missing (`page` may also be a non-number in JS; entries are
modelled up to the shapes the handlers inspect: an optional number and an
optional string). -/
structure RawPrompt where
  page : Option Int
  prompt : Option String
deriving DecidableEq

/-- Result of a successful `JSON.parse` of the model output, restricted
to the fields the handlers read.  `none` in `paragraphs`/`prompts` covers
both an absent field and one that is not an array. -/
structure ParsedBook where
  title : Option String
  tagline : Option String
  ageRange : Option String
  paragraphs : Option (List String)
  prompts : Option (List RawPrompt)
deriving DecidableEq

/-- The user's book-generation request body (all fields optional). -/
structure BookRequest where
  title : Option String
  mainCharacter : Option String
  storyIdea : Option String
  ageRange : Option String
  pageCount : Option Int
deriving DecidableEq

/-- Response shape of the final-version handler (`src/server.js` lines
197-228 and 79-87): includes `mainCharacter`/`storyIdea`. -/
structure BookA where
  title : String
  tagline : String
  ageRange : String
  mainCharacter : String
  storyIdea : String
  paragraphs : List String
  prompts : List PagePrompt
deriving DecidableEq

/-- Response shape of the `part_001` handler: the parsed object with
`title`/`tagline`/`ageRange` patched to definite strings and
`paragraphs`/`prompts` coerced. -/
structure BookC where
  title : String
  tagline : String
  ageRange : String
  paragraphs : List String
  prompts : List PagePrompt
deriving DecidableEq

/-- Response shape of the `buildPrompt` revision (`src/server.js` lines
474-493): the parsed object is returned as-is, so the scalar fields stay
optional and `prompts` entries are passed through untouched. -/
structure LooseBook where
  title : Option String
  tagline : Option String
  ageRange : Option String
  paragraphs : List String
  prompts : List RawPrompt
deriving DecidableEq

/-- An HTTP JSON response: success payload or an error status with its
`error` message string. -/
inductive Resp (α : Type) where
  | ok (a : α)
  | err (status : Nat) (error : String)
deriving DecidableEq

/-- HTTP status of a response (`res.json(...)` is 200). -/
def Resp.status {α : Type} : Resp α → Nat
  | .ok _ => 200
  | .err s _ => s

/-- JS `v || d` for an optional string (`none` and `""` are falsy). -/
def jsOr (v : Option String) (d : String) : String :=
  match v with
  | none => d
  | some s => if s = "" then d else s

/-- JS truthiness of an optional string. -/
def strTruthy (v : Option String) : Bool :=
  match v with
  | none => false
  | some s => s != ""

/-- JS `s.trim()`: strip leading and trailing whitespace.  (Defined over
the character list so that it evaluates by kernel reduction.) -/
def jsTrim (s : String) : String :=
  ⟨((s.data.dropWhile Char.isWhitespace).reverse.dropWhile Char.isWhitespace).reverse⟩

/-- The recurring JS idiom `v && v.trim().length > 0 ? v.trim() : d`. -/
def safeStr (v : Option String) (d : String) : String :=
  match v with
  | none => d
  | some s => if s ≠ "" ∧ 0 < (jsTrim s).length then jsTrim s else d

/-- JS `s.toLowerCase()` (ASCII-faithful). -/
def jsToLower (s : String) : String :=
  ⟨s.data.map Char.toLower⟩

/-- `src/server.js` lines 46-48 and 128-130, `part_001` lines 55-57 and
352-354: `parseInt(pageCount, 10)` then
`isNaN(raw) ? 8 : Math.max(4, Math.min(raw, 16))`. -/
def clampPages (pc : Option Int) : Int :=
  match pc with
  | none => 8
  | some n => max 4 (min n 16)

/-- `src/server.js` line 406 / `part_000` line 43, inside `buildPrompt`:
`const pages = Number(pageCount) || 8;` — no clamping; `0` and `NaN` are
falsy and give 8. -/
def buildPromptPages (pc : Option Int) : Int :=
  match pc with
  | none => 8
  | some n => if n = 0 then 8 else n

/-! ### Version A: `src/server.js` lines 34-242 (the "Final version") -/

/-- The five fixed narrative paragraphs of `buildTemplateBook`
(`src/server.js` lines 50-56), parameterized by the resolved character
and story idea. -/
def templateParagraphsA (c idea ideaLower : String) : List String :=
  [ c ++ " has a big imagination, but lately something has been on their mind: " ++ idea ++ ". Every day, it feels a little bit bigger and a little bit harder to ignore.",
    "One day, " ++ c ++ " decides something has to change. They take a deep breath, look around, and wonder if maybe there is more help and magic waiting just outside their comfort zone.",
    "As the adventure begins, " ++ c ++ " meets new friends and discovers small, brave steps they can take. Each step makes the problem feel just a tiny bit smaller and their heart a lot more confident.",
    "Along the way, " ++ c ++ " learns that it\x27s okay to feel nervous and it\x27s okay to ask for help. The journey shows them that they are never really alone, even when things seem scary or confusing.",
    "By the end of the adventure, " ++ c ++ " realizes that " ++ ideaLower ++ " doesn’t have to be a scary thing anymore. They feel proud, calm, and ready for the next cozy adventure." ]

/-- The per-page prompt template of `buildTemplateBook` (`src/server.js`
lines 59-75): distinct templates for pages 1-4 and the final page, a
generic one otherwise, tested in the source's order (so with 4 pages,
page 4 takes the `i === 4` branch, not the final-page branch). -/
def templatePromptText (i numPages : Nat) (c idea ideaLower : String) : String :=
  if i = 1 then
    c ++ " looking thoughtful in a cozy room, thinking about: " ++ idea ++ "."
  else if i = 2 then
    c ++ " taking a brave first step on their new adventure related to: " ++ idea ++ "."
  else if i = 3 then
    c ++ " meeting a friendly helper or guide who makes them feel safer and more confident."
  else if i = 4 then
    c ++ " practicing a small, brave action that helps them with " ++ ideaLower ++ "."
  else if i = numPages then
    c ++ " feeling proud and calm at the end of the story, showing how they have grown and found courage."
  else
    c ++ " in a gentle scene that continues their adventure about " ++ ideaLower ++ ", looking curious and hopeful."

/-- `buildTemplateBook` (`src/server.js` lines 34-88): the deterministic
template fallback book. -/
def buildTemplateBook (req : BookRequest) : BookA :=
  let safeTitle := safeStr req.title "A Very Special Adventure"
  let safeCharacter := safeStr req.mainCharacter "a brave little hero"
  let safeIdea := safeStr req.storyIdea "a small everyday problem that feels big at first"
  let safeAgeRange := jsOr req.ageRange "3–5"
  let numPages := (clampPages req.pageCount).toNat
  let ideaLower := jsToLower safeIdea
  { title := safeTitle
    tagline := "A cozy story for ages " ++ safeAgeRange ++ " about " ++ ideaLower ++ "."
    ageRange := safeAgeRange
    mainCharacter := safeCharacter
    storyIdea := safeIdea
    paragraphs := templateParagraphsA safeCharacter safeIdea ideaLower
    prompts := (List.range numPages).map (fun (j : Nat) =>
      ⟨(j : Int) + 1, templatePromptText (j + 1) numPages safeCharacter safeIdea ideaLower⟩) }

/-- Outcome of version A's single OpenAI chat call.  `thrown` covers any
exception reaching the outer `catch` (fetch/network error, `.json()`
failure); `httpNotOk` is `!response.ok`; `ok parsed` is a 2xx response
whose content was run through `JSON.parse` — on a parse error the source
sets `parsed = {}` (lines 180-186), i.e. the all-absent `ParsedBook`. -/
inductive TextOutcomeA where
  | thrown
  | httpNotOk
  | ok (parsed : ParsedBook)

/-- `parsed.prompts.map((p, i) => ({ page: p.page || i + 1, prompt:
p.prompt || String(p) }))` (`src/server.js` lines 217-220), with the
0-based position threaded explicitly.  `String(p)` of a prompts entry (a
plain object) is `"[object Object]"`. -/
def promptsMapA : Nat → List RawPrompt → List PagePrompt
  | _, [] => []
  | i, p :: rest =>
    { page := match p.page with
        | some n => if n = 0 then (i : Int) + 1 else n
        | none => (i : Int) + 1
      prompt := match p.prompt with
        | some s => if s = "" then "[object Object]" else s
        | none => "[object Object]" } :: promptsMapA (i + 1) rest

/-- `/api/generate-book` of `src/server.js` lines 95-242 ("Final
version"): validation, key-less template path, template fallback on any
upstream failure, and schema patch-up of the parsed output. -/
def generateBookA (hasKey : Bool) (req : BookRequest) (outcome : TextOutcomeA) : Resp BookA :=
  if !strTruthy req.mainCharacter && !strTruthy req.storyIdea then
    .err 400 "Please provide a mainCharacter and/or storyIdea."
  else if !hasKey then
    .ok (buildTemplateBook req)
  else
    match outcome with
    | .thrown => .ok (buildTemplateBook req)
    | .httpNotOk => .ok (buildTemplateBook req)
    | .ok parsed =>
      let safeTitle := safeStr req.title "Magic Story Colorbook"
      let safeCharacter := safeStr req.mainCharacter "a child with a big feeling"
      let safeIdea := safeStr req.storyIdea "a gentle everyday problem that feels big"
      let safeAgeRange := jsOr req.ageRange "3–5"
      let ideaLower := jsToLower safeIdea
      .ok
        { title := jsOr parsed.title safeTitle
          tagline := jsOr parsed.tagline
            ("A cozy story for ages " ++ safeAgeRange ++ " about " ++ ideaLower ++ ".")
          ageRange := jsOr parsed.ageRange safeAgeRange
          mainCharacter := safeCharacter
          storyIdea := safeIdea
          paragraphs := match parsed.paragraphs with
            | some l => if 0 < l.length then l else (buildTemplateBook req).paragraphs
            | none => (buildTemplateBook req).paragraphs
          prompts := match parsed.prompts with
            | some l => if 0 < l.length then promptsMapA 0 l else (buildTemplateBook req).prompts
            | none => (buildTemplateBook req).prompts }

/-! ### Version B: `src/server.js` lines 390-498 = `part_000` lines 30-131 -/

/-- Outcome of version B's `openai.responses.create` call: `thrown`
covers any exception reaching the outer `catch` (which returns 500);
`ok raw` is the returned output text. -/
inductive TextOutcomeB where
  | thrown
  | ok (raw : String)

/-- `/api/generate-book` of the `buildPrompt` revision (`src/server.js`
lines 450-498, `part_000` lines 87-131).  `jsonParse` stands for
`JSON.parse` on the raw model output: the handler applies it to `raw`
unchanged.  On parse failure it builds the degraded shape of lines
480-488 and still returns 200; the outer `catch` returns 500. -/
def generateBookB (jsonParse : String → Option ParsedBook) (req : BookRequest)
    (outcome : TextOutcomeB) : Resp LooseBook :=
  if !strTruthy req.mainCharacter && !strTruthy req.storyIdea then
    .err 400 "Please provide at least a mainCharacter or storyIdea."
  else
    match outcome with
    | .thrown => .err 500 "Failed to generate book."
    | .ok raw =>
      match jsonParse raw with
      | some parsed =>
        .ok { title := parsed.title
              tagline := parsed.tagline
              ageRange := parsed.ageRange
              paragraphs := parsed.paragraphs.getD []
              prompts := parsed.prompts.getD [] }
      | none =>
        .ok { title := some (jsOr req.title "Your Custom Story")
              tagline := some ""
              ageRange := some (jsOr req.ageRange "")
              paragraphs := [raw]
              prompts := [] }

/-- Modelled from the spec: the fence-stripping step the spec requires
before parsing ("If the model wrapped output in a fenced code block, the
fence markers must be stripped before parsing") — no revision in `src/`
implements it; it exists here only to compare against the source
handlers, which pass the raw text to `JSON.parse` unchanged.  Drops a
leading ```` ``` ````-fence line and a trailing ```` ``` ```` marker. -/
def stripFences (s : String) : String :=
  let t := jsTrim s
  if t.data.take 3 = "```".data then
    let afterFence := (t.data.dropWhile (· ≠ '\n')).drop 1
    let body :=
      if afterFence.reverse.take 3 = "```".data then (afterFence.reverse.drop 3).reverse
      else afterFence
    jsTrim ⟨body⟩
  else s

/-! ### Version C: `src/unnamed/part_001` lines 37-181 -/

/-- Outcome of version C's OpenAI chat call: `thrown` covers an exception
or missing content (both reach the outer `catch`, lines 113-116 and
149-180); `ok none` is content present but `JSON.parse` failed (lines
119-126, an early 500 `return`); `ok (some parsed)` is a parsed object. -/
inductive TextOutcomeC where
  | thrown
  | ok (parsed : Option ParsedBook)

/-- `part_001` line 53: `const safeIdea = storyIdea.trim();` — note: no
default is substituted (unlike `safeCharacter`). -/
def safeIdeaC (req : BookRequest) : String :=
  jsTrim (req.storyIdea.getD "")

/-- The `.map((p, idx) => ({ page: typeof p.page === "number" ? p.page :
idx + 1, prompt: p.prompt || "" }))` step of `part_001` lines 135-138,
with the 0-based position threaded explicitly. -/
def normMapC : Nat → List RawPrompt → List PagePrompt
  | _, [] => []
  | idx, p :: rest =>
    { page := match p.page with
        | some n => n
        | none => (idx : Int) + 1
      prompt := p.prompt.getD "" } :: normMapC (idx + 1) rest

/-- `book.prompts = book.prompts.slice(0, numPages).map(...).filter((p)
=> p.prompt && typeof p.prompt === "string")` (`part_001` lines
133-139). -/
def normalizePromptsC (numPages : Nat) (ps : List RawPrompt) : List PagePrompt :=
  (normMapC 0 (ps.take numPages)).filter (fun q => q.prompt != "")

/-- The per-page fallback prompt template of `part_001` lines 160-171:
distinct templates for page 1 and the final page, a generic one
otherwise. -/
def fallbackPromptTextC (i numPages : Nat) (c idea : String) : String :=
  if i = 1 then
    c ++ " in a cozy room, thinking about the big problem on their mind: " ++ idea ++ "."
  else if i = numPages then
    c ++ " feeling proud and calm at the end of the story, showing how much braver they have become."
  else
    c ++ " on their gentle adventure, taking small brave steps and meeting kind helpers."

/-- The four fixed fallback paragraphs of `part_001` lines 153-158. -/
def fallbackParagraphsC (c idea : String) : List String :=
  [ c ++ " has a big imagination, but lately something has been on their mind: " ++ idea ++ ". Every day, that feeling seems a little bit bigger and a little harder to ignore.",
    "One day, " ++ c ++ " decides something has to change. They take a deep breath and wonder if there might be a new, braver way to move through the day.",
    "As the adventure begins, " ++ c ++ " meets new friends and discovers small, brave steps they can take. Each tiny step makes the big feeling a little smaller.",
    "By the end of the adventure, " ++ c ++ " realizes that the worry that once felt huge now feels lighter. They feel proud, calm, and ready for the next cozy adventure." ]

/-- The deterministic fallback book returned by `part_001`'s `catch`
block (lines 149-180), recomputed from the request exactly as the source
does from its `safe*` constants. -/
def fallbackBookC (req : BookRequest) : BookC :=
  let safeTitle := safeStr req.title "A Very Special Adventure"
  let safeCharacter := safeStr req.mainCharacter "a brave little hero"
  let safeIdea := safeIdeaC req
  let safeAgeRange := jsOr req.ageRange "3-5"
  let numPages := (clampPages req.pageCount).toNat
  { title := safeTitle
    tagline := "A cozy story for ages " ++ safeAgeRange ++ " about " ++ jsToLower safeIdea ++ "."
    ageRange := safeAgeRange
    paragraphs := fallbackParagraphsC safeCharacter safeIdea
    prompts := (List.range numPages).map (fun (j : Nat) =>
      ⟨(j : Int) + 1, fallbackPromptTextC (j + 1) numPages safeCharacter safeIdea⟩) }

/-- `/api/generate-book` of `part_001` lines 37-181: note the validation
is `if (!mainCharacter || !storyIdea)` — it rejects unless BOTH fields
are truthy — and a JSON parse failure is answered with a 500. -/
def generateBookC (req : BookRequest) (outcome : TextOutcomeC) : Resp BookC :=
  if !strTruthy req.mainCharacter || !strTruthy req.storyIdea then
    .err 400 "Missing required character or story idea."
  else
    let safeTitle := safeStr req.title "A Very Special Adventure"
    let safeIdea := safeIdeaC req
    let safeAgeRange := jsOr req.ageRange "3-5"
    let numPages := (clampPages req.pageCount).toNat
    match outcome with
    | .thrown => .ok (fallbackBookC req)
    | .ok none => .err 500 "Failed to parse story from AI response."
    | .ok (some parsed) =>
      .ok { title := jsOr parsed.title safeTitle
            tagline := jsOr parsed.tagline
              ("A cozy story for ages " ++ safeAgeRange ++ " about " ++ jsToLower safeIdea ++ ".")
            ageRange := jsOr parsed.ageRange safeAgeRange
            paragraphs := parsed.paragraphs.getD []
            prompts := normalizePromptsC numPages (parsed.prompts.getD []) }

/-- Prompts length of a version-A response (0 for an error response);
used to state facts about the returned book's prompt list. -/
def promptCountA (r : Resp BookA) : Nat :=
  match r with
  | .ok b => b.prompts.length
  | .err _ _ => 0

/-- Prompts of a version-C response (empty for an error response). -/
def promptsOfC (r : Resp BookC) : List PagePrompt :=
  match r with
  | .ok b => b.prompts
  | .err _ _ => []

/-- Paragraphs of a version-C response (empty for an error response). -/
def paragraphsOfC (r : Resp BookC) : List String :=
  match r with
  | .ok b => b.paragraphs
  | .err _ _ => []

/-! ### Image generation handlers -/

/-- One generated image as returned to the client.  `url` is optional
because `part_000` (lines 236-237) pushes `response.data[0]?.url` without
checking it, so a JS `undefined` can end up in the response. -/
structure GeneratedImage where
  page : Int
  url : Option String
deriving DecidableEq

/-- Outcome of one Stability HTTP call, by 0-based loop index: a 2xx
response carrying the (base64-encoded) image bytes, a non-ok response
with its status code, or a thrown exception (network error etc.) that
reaches the handler's `catch`. -/
inductive StabOutcome where
  | ok (b64 : String)
  | notOk (status : Nat)
  | thrown
deriving DecidableEq

/-- `true` when the loop proceeds past this outcome without aborting the
whole request: a success, or a non-ok response other than 402. -/
def StabOutcome.continues : StabOutcome → Bool
  | .ok _ => true
  | .notOk c => c != 402
  | .thrown => false

/-- `true` exactly on a 2xx outcome. -/
def StabOutcome.isOk : StabOutcome → Bool
  | .ok _ => true
  | _ => false

/-- How the sequential image loop ended: normally with the accumulated
images, aborted by the 402 early `return`, or aborted by an exception. -/
inductive LoopExit where
  | done (imgs : List GeneratedImage)
  | billing
  | threw
deriving DecidableEq

/-- Prepend an image to a normal exit; aborts pass through unchanged. -/
def LoopExit.push (g : GeneratedImage) : LoopExit → LoopExit
  | .done imgs => .done (g :: imgs)
  | e => e

/-- `data:image/png;base64,` + the base64 payload (`src/server.js` lines
330-335, `part_001` lines 268-272, `part_002` lines 71-75). -/
def dataUrl (b64 : String) : String :=
  "data:image/png;base64," ++ b64

/-- Combined run result of an image endpoint: the 0-based loop indices at
which an external call was actually issued, in order, and the HTTP
response. -/
structure ImagesRun where
  calls : List Nat
  response : Resp (List GeneratedImage)
deriving DecidableEq

/-- The `for (let i = 0; i < maxImages; i++)` body of `src/server.js`
lines 275-336, over the list of remaining loop indices: every iteration
issues one Stability call; a non-ok 402 response returns 402 at once, any
other non-ok response is logged and skipped (`continue`), a success
pushes `{ page: i + 1, url: dataUrl }`. -/
def stabLoop1 (o : Nat → StabOutcome) : List Nat → List Nat × LoopExit
  | [] => ([], .done [])
  | i :: rest =>
    match o i with
    | .thrown => ([i], .threw)
    | .notOk c =>
      if c = 402 then ([i], .billing)
      else
        let r := stabLoop1 o rest
        (i :: r.1, r.2)
    | .ok b64 =>
      let r := stabLoop1 o rest
      (i :: r.1, (r.2).push ⟨(i : Int) + 1, some (dataUrl b64)⟩)

/-- `/api/generate-images` of `src/server.js` lines 256-353: 400 on
missing/empty prompts, `maxImages = Math.min(prompts.length, 8)`, 500 if
the Stability key is missing, then the sequential loop; afterwards 500 if
no image was produced.  (`prompts` entries are used only inside the
request payload, so only their count matters here; the `character` field
likewise only affects the payload.) -/
def generateImages1 (hasStabKey : Bool) (prompts : List String)
    (o : Nat → StabOutcome) : ImagesRun :=
  if prompts.length = 0 then ⟨[], .err 400 "No prompts provided."⟩
  else if !hasStabKey then ⟨[], .err 500 "Image generation not configured."⟩
  else
    match stabLoop1 o (List.range (min prompts.length 8)) with
    | (cs, .threw) => ⟨cs, .err 500 "Failed to generate images."⟩
    | (cs, .billing) => ⟨cs, .err 402 "Billing limit reached"⟩
    | (cs, .done imgs) =>
      if imgs.length = 0 then ⟨cs, .err 500 "No images could be generated."⟩
      else ⟨cs, .ok imgs⟩

/-- A `prompts` array entry as the image endpoints of `part_001`,
`part_002` and `part_000` see it: a plain string, an object with optional
`page`/`prompt`/`description` fields, or some other primitive (`other`
covers truthy non-objects and, for field access, anything whose `.page`/
`.prompt` are `undefined`; `null` entries, which would throw in
`part_002`/`part_000`, are outside the model). -/
inductive PromptItem where
  | str (s : String)
  | obj (page : Option Int) (prompt : Option String) (description : Option String)
  | other
deriving DecidableEq

/-- JS `item.page || d` (a missing or `0` page falls back to `d`, the
1-based loop position). -/
def itemPage (d : Int) : PromptItem → Int
  | .obj (some n) _ _ => if n = 0 then d else n
  | _ => d

/-- `part_001` lines 222-227: a string entry is its own prompt; an object
yields `rawItem.prompt || rawItem.description || ""`; anything else
leaves the base prompt empty. -/
def itemBasePrompt : PromptItem → String
  | .str s => s
  | .obj _ p d => jsOr p (jsOr d "")
  | .other => ""

/-- `part_002` line 31: `const basePrompt = item.prompt || "";` (no
`description` fallback, and string entries have no `.prompt`). -/
def itemPromptOnly : PromptItem → String
  | .obj _ p _ => jsOr p ""
  | _ => ""

/-- The loop body of `part_001` lines 214-273: entries with an empty base
prompt are skipped WITHOUT issuing a call; otherwise one Stability call
is issued with the same 402 short-circuit / skip / push behavior as
`stabLoop1`, with `page = rawItem.page || i + 1`. -/
def stabLoop3 (items : List PromptItem) (o : Nat → StabOutcome) :
    List Nat → List Nat × LoopExit
  | [] => ([], .done [])
  | i :: rest =>
    let item := items.getD i .other
    if itemBasePrompt item = "" then stabLoop3 items o rest
    else
      match o i with
      | .thrown => ([i], .threw)
      | .notOk c =>
        if c = 402 then ([i], .billing)
        else
          let r := stabLoop3 items o rest
          (i :: r.1, r.2)
      | .ok b64 =>
        let r := stabLoop3 items o rest
        (i :: r.1, (r.2).push ⟨itemPage ((i : Int) + 1) item, some (dataUrl b64)⟩)

/-- `/api/generate-images` of `part_001` lines 195-290: same frame as
`generateImages1` (400 / key check / cap 8 / empty-set 500) over
string-or-object prompt entries. -/
def generateImages3 (hasStabKey : Bool) (prompts : List PromptItem)
    (o : Nat → StabOutcome) : ImagesRun :=
  if prompts.length = 0 then ⟨[], .err 400 "No prompts provided."⟩
  else if !hasStabKey then ⟨[], .err 500 "Image generation not configured."⟩
  else
    match stabLoop3 prompts o (List.range (min prompts.length 8)) with
    | (cs, .threw) => ⟨cs, .err 500 "Failed to generate images."⟩
    | (cs, .billing) => ⟨cs, .err 402 "Billing limit reached"⟩
    | (cs, .done imgs) =>
      if imgs.length = 0 then ⟨cs, .err 500 "No images could be generated."⟩
      else ⟨cs, .ok imgs⟩

/-- The loop body of `part_002` lines 28-76: every iteration issues one
Stability call; ANY non-ok response (including 402) is logged and skipped
via `continue` — there is no 402 short-circuit; `none` signals a thrown
exception reaching the `catch`. -/
def stabLoop4 (items : List PromptItem) (o : Nat → StabOutcome) :
    List Nat → List Nat × Option (List GeneratedImage)
  | [] => ([], some [])
  | i :: rest =>
    let item := items.getD i .other
    match o i with
    | .thrown => ([i], none)
    | .notOk _ =>
      let r := stabLoop4 items o rest
      (i :: r.1, r.2)
    | .ok b64 =>
      let r := stabLoop4 items o rest
      (i :: r.1, (r.2).map (fun l =>
        (⟨itemPage ((i : Int) + 1) item, some (dataUrl b64)⟩ : GeneratedImage) :: l))

/-- `/api/generate-images` of `part_002` lines 8-93: 400 / key check /
cap 8 / empty-set 500, but non-ok responses — 402 included — only skip
the page. -/
def generateImages4 (hasStabKey : Bool) (prompts : List PromptItem)
    (o : Nat → StabOutcome) : ImagesRun :=
  if prompts.length = 0 then ⟨[], .err 400 "No prompts provided."⟩
  else if !hasStabKey then ⟨[], .err 500 "Image generation not configured."⟩
  else
    match stabLoop4 prompts o (List.range (min prompts.length 8)) with
    | (cs, none) => ⟨cs, .err 500 "Failed to generate images."⟩
    | (cs, some imgs) =>
      if imgs.length = 0 then ⟨cs, .err 500 "No images could be generated."⟩
      else ⟨cs, .ok imgs⟩

/-- Outcome of one `openai.images.generate` call in `part_000`: a normal
return whose `response.data[0]?.url` may be absent, or a thrown error. -/
inductive OaiOutcome where
  | ok (url : Option String)
  | thrown
deriving DecidableEq

/-- The loop body of `part_000` lines 217-238: every iteration issues one
OpenAI image call; a thrown error aborts the whole batch (`catch` → 500);
otherwise `{ page: item.page || i + 1, url: response.data[0]?.url }` is
pushed UNCONDITIONALLY — a missing url is not skipped. -/
def oaiLoop0 (items : List PromptItem) (o : Nat → OaiOutcome) :
    List Nat → List Nat × Option (List GeneratedImage)
  | [] => ([], some [])
  | i :: rest =>
    let item := items.getD i .other
    match o i with
    | .thrown => ([i], none)
    | .ok url =>
      let r := oaiLoop0 items o rest
      (i :: r.1, (r.2).map (fun l =>
        (⟨itemPage ((i : Int) + 1) item, url⟩ : GeneratedImage) :: l))

/-- `/api/generate-images` of `part_000` lines 203-248: 400 on empty
prompts, cap 8, NO credential check, NO empty-set check — the handler
returns 200 with whatever was accumulated (possibly with absent urls, or
nothing at all); an exception yields 500 "Image generation failed". -/
def generateImages0 (prompts : List PromptItem) (o : Nat → OaiOutcome) : ImagesRun :=
  if prompts.length = 0 then ⟨[], .err 400 "No prompts provided."⟩
  else
    match oaiLoop0 prompts o (List.range (min prompts.length 8)) with
    | (cs, none) => ⟨cs, .err 500 "Image generation failed"⟩
    | (cs, some imgs) => ⟨cs, .ok imgs⟩

/-- Spec-side description of the images a full non-aborted run of the
final-version Stability loop should return: the successful subset, in
ascending loop order, with 1-based page numbers and data urls. -/
def specSuccessImages (o : Nat → StabOutcome) (maxImages : Nat) : List GeneratedImage :=
  (List.range maxImages).filterMap (fun i =>
    match o i with
    | .ok b64 => some ⟨(i : Int) + 1, some (dataUrl b64)⟩
    | _ => none)

/-! ### Helper lemmas -/

theorem strTruthy_eq_false_iff (v : Option String) :
    strTruthy v = false ↔ (v = none ∨ v = some "") := by
  cases v with
  | none => simp [strTruthy]
  | some s => simp [strTruthy]

theorem validA_eq_false {req : BookRequest}
    (h : (strTruthy req.mainCharacter || strTruthy req.storyIdea) = true) :
    (!strTruthy req.mainCharacter && !strTruthy req.storyIdea) = false := by
  cases h1 : strTruthy req.mainCharacter <;> cases h2 : strTruthy req.storyIdea <;>
    simp_all

theorem validC_eq_false {req : BookRequest}
    (h : (strTruthy req.mainCharacter && strTruthy req.storyIdea) = true) :
    (!strTruthy req.mainCharacter || !strTruthy req.storyIdea) = false := by
  cases h1 : strTruthy req.mainCharacter <;> cases h2 : strTruthy req.storyIdea <;>
    simp_all

/-! ### Claim C1 -/

/-- C1, counterexample: the claim says a failure of the outer text-call
"never" yields an error status, but the `buildPrompt` revision that is
part of `src/server.js` (lines 494-497, = `part_000` lines 127-130)
answers a thrown upstream call with HTTP 500 on a request that passes
validation. -/
theorem c1_counterexample :
    generateBookB (fun _ => none) ⟨some "T", some "Sam", some "a dragon", some "3-5", some 8⟩
        .thrown
      = .err 500 "Failed to generate book." := by
  decide

/-- C1, amended: in the revisions that implement a template fallback —
the final-version handler (`src/server.js` lines 165-175 and 231-241) and
`part_001` (lines 149-180) — an outer text-provider failure (thrown
exception or non-ok HTTP response) on a validated request yields HTTP 200
with the deterministic template book synthesized from the request. -/
theorem c1_amended (req : BookRequest)
    (hA : (strTruthy req.mainCharacter || strTruthy req.storyIdea) = true) :
    generateBookA true req .thrown = .ok (buildTemplateBook req)
    ∧ generateBookA true req .httpNotOk = .ok (buildTemplateBook req)
    ∧ ((strTruthy req.mainCharacter && strTruthy req.storyIdea) = true →
        generateBookC req .thrown = .ok (fallbackBookC req)) := by
  have hcond := validA_eq_false hA
  refine ⟨?_, ?_, fun hboth => ?_⟩
  · simp [generateBookA, hcond]
  · simp [generateBookA, hcond]
  · simp [generateBookC, validC_eq_false hboth]

/-- C1, witness for `c1_amended` at a concrete request. -/
theorem c1_amended_witness :
    generateBookA true ⟨some "T", some "Sam", some "a dragon", some "5-7", some 6⟩ .thrown
      = .ok (buildTemplateBook ⟨some "T", some "Sam", some "a dragon", some "5-7", some 6⟩)
    ∧ generateBookC ⟨some "T", some "Sam", some "a dragon", some "5-7", some 6⟩ .thrown
      = .ok (fallbackBookC ⟨some "T", some "Sam", some "a dragon", some "5-7", some 6⟩) := by
  have h := c1_amended ⟨some "T", some "Sam", some "a dragon", some "5-7", some 6⟩ (by decide)
  exact ⟨h.1, h.2.2 (by decide)⟩

/-! ### Claim C2 -/

/-- C2, counterexample: (i) the `part_001` revision answers an
unparseable model output with HTTP 500, not 200; (ii) even in the
`buildPrompt` revision whose degraded book the claim describes, an absent
request title yields the fixed default "Your Custom Story", not the empty
string. -/
theorem c2_counterexample :
    generateBookC ⟨some "T", some "Sam", some "a dragon", some "3-5", some 8⟩ (.ok none)
      = .err 500 "Failed to parse story from AI response."
    ∧ generateBookB (fun _ => none) ⟨none, some "Sam", some "a dragon", none, none⟩
        (.ok "not json")
      = .ok ⟨some "Your Custom Story", some "", some "", ["not json"], []⟩ := by
  exact ⟨by decide, by decide⟩

/-- C2, amended: in the `buildPrompt` revision (`src/server.js` lines
477-493, `part_000` lines 107-126) an unparseable model output does not
fail the request: the endpoint returns HTTP 200 with a degraded book
whose paragraphs are the single raw text, whose prompts are empty, whose
ageRange is the request's (or "" if absent/empty) and whose title is the
request's (or the fixed default "Your Custom Story" if absent/empty);
the `part_001` revisions instead return 500 on parse failure, and the
final-version revision substitutes template paragraphs and prompts. -/
theorem c2_amended (jsonParse : String → Option ParsedBook) (req : BookRequest) (raw : String)
    (hv : (strTruthy req.mainCharacter || strTruthy req.storyIdea) = true)
    (hp : jsonParse raw = none) :
    generateBookB jsonParse req (.ok raw)
      = .ok ⟨some (jsOr req.title "Your Custom Story"), some "",
             some (jsOr req.ageRange ""), [raw], []⟩ := by
  simp [generateBookB, validA_eq_false hv, hp]

/-- C2, witness for `c2_amended` at a concrete request and raw text. -/
theorem c2_amended_witness :
    generateBookB (fun _ => none) ⟨some "My Title", some "Sam", none, some "6-8", none⟩
        (.ok "not json")
      = .ok ⟨some "My Title", some "", some "6-8", ["not json"], []⟩ := by
  have h := c2_amended (fun _ => none) ⟨some "My Title", some "Sam", none, some "6-8", none⟩
    "not json" (by decide) rfl
  rw [h]
  decide

/-! ### Claim C3 -/

/-- C3, counterexample: the `part_001` revision's validation is
`if (!mainCharacter || !storyIdea)`, so a request with a non-empty
`mainCharacter` but an absent `storyIdea` is rejected with 400 although
the claim says such a request proceeds. -/
theorem c3_counterexample :
    generateBookC ⟨none, some "Sam", none, none, none⟩ .thrown
      = .err 400 "Missing required character or story idea." := by
  decide

/-- C3, amended: the `src/server.js` handlers (both revisions) return 400
exactly when both `mainCharacter` and `storyIdea` are JS-falsy, and never
return 400 otherwise; the `part_001` revision returns 400 unless BOTH are
truthy.  In all revisions the rejection is decided before any external
call: a rejected request yields the same 400 response whatever the
upstream outcome. -/
theorem c3_amended (req : BookRequest) :
    ((strTruthy req.mainCharacter || strTruthy req.storyIdea) = false →
      (∀ (hk : Bool) (o : TextOutcomeA),
        generateBookA hk req o = .err 400 "Please provide a mainCharacter and/or storyIdea.")
      ∧ (∀ (p : String → Option ParsedBook) (o : TextOutcomeB),
        generateBookB p req o = .err 400 "Please provide at least a mainCharacter or storyIdea.")
      ∧ (∀ o : TextOutcomeC,
        generateBookC req o = .err 400 "Missing required character or story idea."))
    ∧ ((strTruthy req.mainCharacter || strTruthy req.storyIdea) = true →
      (∀ (hk : Bool) (o : TextOutcomeA), (generateBookA hk req o).status ≠ 400)
      ∧ (∀ (p : String → Option ParsedBook) (o : TextOutcomeB),
        (generateBookB p req o).status ≠ 400))
    ∧ ((strTruthy req.mainCharacter && strTruthy req.storyIdea) = true →
      ∀ o : TextOutcomeC, (generateBookC req o).status ≠ 400) := by
  refine ⟨fun hfalse => ?_, fun htrue => ?_, fun hboth => ?_⟩
  · have h1 : strTruthy req.mainCharacter = false := by
      cases h : strTruthy req.mainCharacter <;> simp_all
    have h2 : strTruthy req.storyIdea = false := by
      cases h : strTruthy req.storyIdea <;> simp_all
    refine ⟨fun hk o => ?_, fun p o => ?_, fun o => ?_⟩
    · simp [generateBookA, h1, h2]
    · simp [generateBookB, h1, h2]
    · cases h : strTruthy req.mainCharacter <;> simp_all [generateBookC]
  · have hcond := validA_eq_false htrue
    refine ⟨fun hk o => ?_, fun p o => ?_⟩
    · cases hk <;> cases o <;> simp [generateBookA, hcond, Resp.status]
    · cases o with
      | thrown => simp [generateBookB, hcond, Resp.status]
      | ok raw =>
        cases h : p raw with
        | none => simp [generateBookB, hcond, Resp.status, h]
        | some parsed => simp [generateBookB, hcond, Resp.status, h]
  · have hcond := validC_eq_false hboth
    intro o
    cases o with
    | thrown => simp [generateBookC, hcond, Resp.status]
    | ok parsed => cases parsed <;> simp [generateBookC, hcond, Resp.status]

/-- C3, witness for `c3_amended` at concrete requests. -/
theorem c3_amended_witness :
    generateBookA false ⟨none, none, some "", none, none⟩ .thrown
      = .err 400 "Please provide a mainCharacter and/or storyIdea."
    ∧ (generateBookB (fun _ => none) ⟨none, some "Sam", none, none, none⟩ .thrown).status ≠ 400
    ∧ (generateBookC ⟨none, some "Sam", some "a dragon", none, none⟩ (.ok none)).status ≠ 400 := by
  refine ⟨((c3_amended ⟨none, none, some "", none, none⟩).1 (by decide)).1 false .thrown,
    ((c3_amended ⟨none, some "Sam", none, none, none⟩).2.1 (by decide)).2 (fun _ => none) .thrown,
    (c3_amended ⟨none, some "Sam", some "a dragon", none, none⟩).2.2 (by decide) (.ok none)⟩

/-! ### Claim C4 -/

/-- C4, counterexample: the `buildPrompt` revision resolves the page
count as `Number(pageCount) || 8` with no clamping, so `pageCount = 100`
resolves to 100 (not ≤ 16) and `pageCount = 2` resolves to 2 (not ≥ 4). -/
theorem c4_counterexample :
    buildPromptPages (some 100) = 100 ∧ ¬ buildPromptPages (some 100) ≤ 16
    ∧ buildPromptPages (some 2) = 2 ∧ ¬ 4 ≤ buildPromptPages (some 2) := by
  decide

/-- C4, amended: in the final-version and `part_001` revisions the
resolved page count is 8 when `pageCount` is absent/unparseable and
otherwise `Math.max(4, Math.min(pageCount, 16))`, hence always in
[4, 16], and the template books contain exactly that many prompts; the
`buildPrompt` revision (`src/server.js` line 406) instead uses
`Number(pageCount) || 8` with no clamping. -/
theorem c4_amended (pc : Option Int) (req : BookRequest) :
    4 ≤ clampPages pc ∧ clampPages pc ≤ 16
    ∧ (pc = none → clampPages pc = 8)
    ∧ (∀ n : Int, pc = some n → clampPages pc = max 4 (min n 16))
    ∧ (buildTemplateBook req).prompts.length = (clampPages req.pageCount).toNat
    ∧ (fallbackBookC req).prompts.length = (clampPages req.pageCount).toNat := by
  refine ⟨?_, ?_, fun h => by simp [h, clampPages], fun n h => by simp [h, clampPages], ?_, ?_⟩
  · cases pc with
    | none => simp [clampPages]
    | some n => simp [clampPages]
  · cases pc with
    | none => simp [clampPages]
    | some n => simp [clampPages]
  · simp [buildTemplateBook]
  · simp [fallbackBookC]

/-- C4, witness for `c4_amended` at concrete page counts. -/
theorem c4_amended_witness :
    clampPages none = 8
    ∧ clampPages (some 100) = max 4 (min 100 16)
    ∧ 4 ≤ clampPages (some 100) ∧ clampPages (some 100) ≤ 16 := by
  refine ⟨(c4_amended none ⟨none, none, none, none, none⟩).2.2.1 rfl,
    (c4_amended (some 100) ⟨none, none, none, none, none⟩).2.2.2.1 100 rfl,
    (c4_amended (some 100) ⟨none, none, none, none, none⟩).1,
    (c4_amended (some 100) ⟨none, none, none, none, none⟩).2.1⟩

/-! ### Image-loop lemmas -/

theorem stabLoop1_calls_length (o : Nat → StabOutcome) (is : List Nat) :
    (stabLoop1 o is).1.length ≤ is.length := by
  induction is with
  | nil => simp [stabLoop1]
  | cons i rest ih =>
    rw [stabLoop1]
    cases o i with
    | thrown => simp
    | notOk c =>
      by_cases hc : c = 402
      · simp [hc]
      · simp only [hc, if_false]
        simpa using ih
    | ok b64 => simpa using ih

theorem stabLoop3_calls_length (items : List PromptItem) (o : Nat → StabOutcome)
    (is : List Nat) : (stabLoop3 items o is).1.length ≤ is.length := by
  induction is with
  | nil => simp [stabLoop3]
  | cons i rest ih =>
    rw [stabLoop3]
    by_cases hb : itemBasePrompt (items.getD i .other) = ""
    · simp only [hb, if_true]
      exact le_trans ih (by simp)
    · simp only [hb, if_false]
      cases o i with
      | thrown => simp
      | notOk c =>
        by_cases hc : c = 402
        · simp [hc]
        · simp only [hc, if_false]
          simpa using ih
      | ok b64 => simpa using ih

theorem stabLoop4_calls_length (items : List PromptItem) (o : Nat → StabOutcome)
    (is : List Nat) : (stabLoop4 items o is).1.length ≤ is.length := by
  induction is with
  | nil => simp [stabLoop4]
  | cons i rest ih =>
    rw [stabLoop4]
    cases o i with
    | thrown => simp
    | notOk c => simpa using ih
    | ok b64 => simpa using ih

theorem oaiLoop0_calls_length (items : List PromptItem) (o : Nat → OaiOutcome)
    (is : List Nat) : (oaiLoop0 items o is).1.length ≤ is.length := by
  induction is with
  | nil => simp [oaiLoop0]
  | cons i rest ih =>
    rw [oaiLoop0]
    cases o i with
    | thrown => simp
    | ok url => simpa using ih

theorem range_split (k m : Nat) (h : k < m) :
    List.range m = List.range k ++ k :: (List.range (m - k - 1)).map (fun x => k + 1 + x) := by
  have hm : k + 1 + (m - k - 1) = m := by omega
  have h1 : List.range (k + 1 + (m - k - 1))
      = List.range (k + 1) ++ (List.range (m - k - 1)).map (fun x => k + 1 + x) :=
    List.range_add (k + 1) (m - k - 1)
  have h2 : List.range (k + 1) = List.range k ++ [k] := by simpa using List.range_succ k
  calc List.range m = List.range (k + 1 + (m - k - 1)) := by rw [hm]
    _ = List.range (k + 1) ++ (List.range (m - k - 1)).map (fun x => k + 1 + x) := h1
    _ = (List.range k ++ [k]) ++ (List.range (m - k - 1)).map (fun x => k + 1 + x) := by
          rw [h2]
    _ = List.range k ++ k :: (List.range (m - k - 1)).map (fun x => k + 1 + x) := by
          simp

theorem stabLoop1_firstBilling (o : Nat → StabOutcome) (pre : List Nat) (k : Nat)
    (post : List Nat) (hpre : ∀ j ∈ pre, (o j).continues = true)
    (hk : o k = .notOk 402) :
    stabLoop1 o (pre ++ k :: post) = (pre ++ [k], .billing) := by
  induction pre with
  | nil => simp [stabLoop1, hk]
  | cons i rest ih =>
    have hi : (o i).continues = true := hpre i (by simp)
    have hrest : ∀ j ∈ rest, (o j).continues = true := fun j hj => hpre j (by simp [hj])
    rw [List.cons_append, stabLoop1]
    cases hoi : o i with
    | thrown => rw [hoi] at hi; simp [StabOutcome.continues] at hi
    | notOk c =>
      have hc : c ≠ 402 := by
        rw [hoi] at hi
        simpa [StabOutcome.continues] using hi
      simp [hc, ih hrest]
    | ok b64 => simp [ih hrest, LoopExit.push]

theorem stabLoop1_noAbort (o : Nat → StabOutcome) (is : List Nat)
    (h : ∀ j ∈ is, (o j).continues = true) :
    stabLoop1 o is = (is, .done (is.filterMap (fun i =>
      match o i with
      | .ok b64 => some ⟨(i : Int) + 1, some (dataUrl b64)⟩
      | _ => none))) := by
  induction is with
  | nil => simp [stabLoop1]
  | cons i rest ih =>
    have hi : (o i).continues = true := h i (by simp)
    have hrest : ∀ j ∈ rest, (o j).continues = true := fun j hj => h j (by simp [hj])
    rw [stabLoop1]
    cases hoi : o i with
    | thrown => rw [hoi] at hi; simp [StabOutcome.continues] at hi
    | notOk c =>
      have hc : c ≠ 402 := by
        rw [hoi] at hi
        simpa [StabOutcome.continues] using hi
      simp [hc, ih hrest, List.filterMap_cons, hoi]
    | ok b64 => simp [ih hrest, LoopExit.push, List.filterMap_cons, hoi]

theorem filterMap_pages (o : Nat → StabOutcome) (is : List Nat) :
    ((is.filterMap (fun i =>
      match o i with
      | .ok b64 => some (⟨(i : Int) + 1, some (dataUrl b64)⟩ : GeneratedImage)
      | _ => none)).map GeneratedImage.page)
    = (is.filter (fun i => (o i).isOk)).map (fun (i : Nat) => (i : Int) + 1) := by
  induction is with
  | nil => simp
  | cons i rest ih =>
    cases hoi : o i with
    | thrown => simp [List.filterMap_cons, List.filter_cons, hoi, StabOutcome.isOk, ih]
    | notOk c => simp [List.filterMap_cons, List.filter_cons, hoi, StabOutcome.isOk, ih]
    | ok b64 => simp [List.filterMap_cons, List.filter_cons, hoi, StabOutcome.isOk, ih]

theorem pairwise_cast_add (l : List Nat) (h : l.Pairwise (· < ·)) :
    (l.map (fun (i : Nat) => (i : Int) + 1)).Pairwise (· < ·) := by
  induction l with
  | nil => simp
  | cons a t ih =>
    rcases List.pairwise_cons.mp h with ⟨ha, ht⟩
    refine List.pairwise_cons.mpr ⟨?_, ih ht⟩
    intro x hx
    obtain ⟨b, hb, hbe⟩ := List.mem_map.mp hx
    have hab := ha b hb
    subst hbe
    simp only []
    omega

theorem specSuccessImages_pages_sorted (o : Nat → StabOutcome) (maxImages : Nat) :
    ((specSuccessImages o maxImages).map GeneratedImage.page).Pairwise (· < ·) := by
  rw [specSuccessImages, filterMap_pages]
  have hr : ((List.range maxImages).filter (fun i => (o i).isOk)).Pairwise (· < ·) :=
    List.Pairwise.sublist (List.filter_sublist _) (List.pairwise_lt_range maxImages)
  exact pairwise_cast_add _ hr

/-! ### Claim C5 -/

/-- C5, confirmed: every image-generation revision caps the number of
external image calls at 8 (`maxImages = Math.min(prompts.length, 8)` and
one call at most per loop iteration), whatever the supplied prompts. -/
theorem c5_cap :
    (∀ (hk : Bool) (ps : List String) (o : Nat → StabOutcome),
      (generateImages1 hk ps o).calls.length ≤ 8)
    ∧ (∀ (hk : Bool) (ps : List PromptItem) (o : Nat → StabOutcome),
      (generateImages3 hk ps o).calls.length ≤ 8)
    ∧ (∀ (hk : Bool) (ps : List PromptItem) (o : Nat → StabOutcome),
      (generateImages4 hk ps o).calls.length ≤ 8)
    ∧ (∀ (ps : List PromptItem) (o : Nat → OaiOutcome),
      (generateImages0 ps o).calls.length ≤ 8) := by
  have hrange : ∀ n : Nat, (List.range (min n 8)).length ≤ 8 := by
    intro n; simp
  refine ⟨fun hk ps o => ?_, fun hk ps o => ?_, fun hk ps o => ?_, fun ps o => ?_⟩
  · have hb := le_trans (stabLoop1_calls_length o (List.range (min ps.length 8)))
      (hrange ps.length)
    unfold generateImages1
    split
    · simp
    · split
      · simp
      · rcases hsl : stabLoop1 o (List.range (min ps.length 8)) with ⟨cs, ex⟩
        rw [hsl] at hb
        cases ex with
        | threw => simpa using hb
        | billing => simpa using hb
        | done imgs =>
          by_cases hi : imgs.length = 0 <;> simp [hi] <;> simpa using hb
  · have hb := le_trans (stabLoop3_calls_length ps o (List.range (min ps.length 8)))
      (hrange ps.length)
    unfold generateImages3
    split
    · simp
    · split
      · simp
      · rcases hsl : stabLoop3 ps o (List.range (min ps.length 8)) with ⟨cs, ex⟩
        rw [hsl] at hb
        cases ex with
        | threw => simpa using hb
        | billing => simpa using hb
        | done imgs =>
          by_cases hi : imgs.length = 0 <;> simp [hi] <;> simpa using hb
  · have hb := le_trans (stabLoop4_calls_length ps o (List.range (min ps.length 8)))
      (hrange ps.length)
    unfold generateImages4
    split
    · simp
    · split
      · simp
      · rcases hsl : stabLoop4 ps o (List.range (min ps.length 8)) with ⟨cs, r⟩
        rw [hsl] at hb
        cases r with
        | none => simpa using hb
        | some imgs =>
          by_cases hi : imgs.length = 0 <;> simp [hi] <;> simpa using hb
  · have hb := le_trans (oaiLoop0_calls_length ps o (List.range (min ps.length 8)))
      (hrange ps.length)
    unfold generateImages0
    split
    · simp
    · rcases hsl : oaiLoop0 ps o (List.range (min ps.length 8)) with ⟨cs, r⟩
      rw [hsl] at hb
      cases r with
      | none => simpa using hb
      | some imgs => simpa using hb

/-! ### Claim C6 -/

/-- C6, counterexample: the `part_002` revision has no 402 check — with 8
prompts and a billing failure on the 3rd call, it still issues all 8
calls and returns 200 with the other 7 images instead of a 402. -/
theorem c6_counterexample :
    (generateImages4 true (List.replicate 8 (PromptItem.obj none (some "p") none))
        (fun i => if i = 2 then .notOk 402 else .ok "B")).calls = List.range 8
    ∧ (generateImages4 true (List.replicate 8 (PromptItem.obj none (some "p") none))
        (fun i => if i = 2 then .notOk 402 else .ok "B")).response
      = .ok [⟨1, some (dataUrl "B")⟩, ⟨2, some (dataUrl "B")⟩, ⟨4, some (dataUrl "B")⟩,
             ⟨5, some (dataUrl "B")⟩, ⟨6, some (dataUrl "B")⟩, ⟨7, some (dataUrl "B")⟩,
             ⟨8, some (dataUrl "B")⟩] := by
  exact ⟨by decide, by decide⟩

/-- C6, amended: in the Stability revisions that check for 402 — the
final-version handler (`src/server.js` lines 324-326) and `part_001`
(lines 262-264) — a 402 on the call at 0-based index k (all earlier calls
having continued) makes the batch return 402 "Billing limit reached" at
once, with exactly the calls 0..k issued and none after; the `part_002`
revision instead skips the page and continues. -/
theorem c6_amended (prompts : List String) (o : Nat → StabOutcome) (k : Nat)
    (hk : k < min prompts.length 8)
    (h402 : o k = .notOk 402)
    (hpre : ∀ j, j < k → (o j).continues = true) :
    (generateImages1 true prompts o).calls = List.range (k + 1)
    ∧ (generateImages1 true prompts o).response = .err 402 "Billing limit reached" := by
  have hne : ¬ prompts.length = 0 := by
    intro h
    rw [h] at hk
    simp at hk
  have hloop : stabLoop1 o (List.range (min prompts.length 8))
      = (List.range k ++ [k], .billing) := by
    rw [range_split k (min prompts.length 8) hk]
    exact stabLoop1_firstBilling o (List.range k) k _
      (fun j hj => hpre j (List.mem_range.mp hj)) h402
  have hrk : List.range k ++ [k] = List.range (k + 1) := by
    simpa using (List.range_succ k).symm
  constructor
  · unfold generateImages1
    simp only [hne, if_false, Bool.not_true, hloop]
    simpa using hrk
  · unfold generateImages1
    simp only [hne, if_false, Bool.not_true, hloop]
    simp

/-- C6, witness for `c6_amended`: the spec's own example — 8 prompts,
billing failure on the 3rd call — issues exactly calls 0,1,2 and returns
402. -/
theorem c6_amended_witness :
    (generateImages1 true (List.replicate 8 "p")
        (fun i => if i = 2 then .notOk 402 else .ok "B")).calls = List.range 3
    ∧ (generateImages1 true (List.replicate 8 "p")
        (fun i => if i = 2 then .notOk 402 else .ok "B")).response
      = .err 402 "Billing limit reached" :=
  c6_amended (List.replicate 8 "p") (fun i => if i = 2 then .notOk 402 else .ok "B") 2
    (by decide) (by decide) (by decide)

/-! ### Claim C7 -/

/-- C7, counterexample: the `part_000` OpenAI revision (its cited loop,
lines 217-240) does not skip a failed page — a page whose call returned
no url is pushed with an absent url — and an all-failed batch returns
200 with the degenerate list instead of a "no images generated" error. -/
theorem c7_counterexample :
    (generateImages0
        [PromptItem.obj none (some "a") none, .obj none (some "b") none,
         .obj none (some "c") none, .obj none (some "d") none, .obj none (some "e") none]
        (fun i => if i = 1 then .ok none else .ok (some "U"))).response
      = .ok [⟨1, some "U"⟩, ⟨2, none⟩, ⟨3, some "U"⟩, ⟨4, some "U"⟩, ⟨5, some "U"⟩]
    ∧ (generateImages0
        [PromptItem.obj none (some "a") none, .obj none (some "b") none,
         .obj none (some "c") none, .obj none (some "d") none, .obj none (some "e") none]
        (fun _ => .ok none)).response
      = .ok [⟨1, none⟩, ⟨2, none⟩, ⟨3, none⟩, ⟨4, none⟩, ⟨5, none⟩] := by
  exact ⟨by decide, by decide⟩

/-- C7, amended: in the Stability revisions (final-version handler shown;
`part_001` and `part_002` behave alike) a batch in which no call aborts
returns exactly the successfully generated subset in ascending page
order, skipping the pages whose call failed; if that subset is empty the
endpoint fails with the 500 "No images could be generated." error, which
differs from both the 402 billing error and the 500 "not configured"
error.  The `part_000` OpenAI revision does not satisfy this. -/
theorem c7_amended (prompts : List String) (o : Nat → StabOutcome)
    (hne : ¬ prompts.length = 0)
    (hna : ∀ i, i < min prompts.length 8 → (o i).continues = true) :
    (specSuccessImages o (min prompts.length 8) ≠ [] →
      (generateImages1 true prompts o).response
        = .ok (specSuccessImages o (min prompts.length 8)))
    ∧ (specSuccessImages o (min prompts.length 8) = [] →
      (generateImages1 true prompts o).response
        = .err 500 "No images could be generated.")
    ∧ ((specSuccessImages o (min prompts.length 8)).map GeneratedImage.page).Pairwise (· < ·)
    ∧ (Resp.err 500 "No images could be generated." : Resp (List GeneratedImage))
        ≠ .err 402 "Billing limit reached"
    ∧ (Resp.err 500 "No images could be generated." : Resp (List GeneratedImage))
        ≠ .err 500 "Image generation not configured." := by
  have hloop := stabLoop1_noAbort o (List.range (min prompts.length 8))
    (fun j hj => hna j (List.mem_range.mp hj))
  have hspec : stabLoop1 o (List.range (min prompts.length 8))
      = (List.range (min prompts.length 8), .done (specSuccessImages o (min prompts.length 8))) :=
    hloop
  refine ⟨fun hne2 => ?_, fun he => ?_, specSuccessImages_pages_sorted o _, by decide, by decide⟩
  · have hl : ¬ (specSuccessImages o (min prompts.length 8)).length = 0 := by
      simpa [List.length_eq_zero] using hne2
    unfold generateImages1
    simp only [hne, if_false, Bool.not_true, hspec]
    simp [hl]
  · unfold generateImages1
    simp only [hne, if_false, Bool.not_true, hspec]
    simp [he]

/-- C7, witness for `c7_amended`: the spec's own example — page 2 of 5
fails with a non-billing error; the result is pages 1,3,4,5 ascending. -/
theorem c7_amended_witness :
    (generateImages1 true ["a", "b", "c", "d", "e"]
        (fun i => if i = 1 then .notOk 500 else .ok "B")).response
      = .ok [⟨1, some (dataUrl "B")⟩, ⟨3, some (dataUrl "B")⟩, ⟨4, some (dataUrl "B")⟩,
             ⟨5, some (dataUrl "B")⟩] := by
  have h := (c7_amended ["a", "b", "c", "d", "e"]
    (fun i => if i = 1 then .notOk 500 else .ok "B") (by decide) (by decide)).1 (by decide)
  rw [h]
  decide

/-! ### Normalizer lemmas (for `part_001`'s slice/map/filter step) -/

theorem normMapC_length (ps : List RawPrompt) : ∀ idx : Nat,
    (normMapC idx ps).length = ps.length := by
  induction ps with
  | nil => intro idx; simp [normMapC]
  | cons p rest ih => intro idx; simp [normMapC, ih (idx + 1)]

theorem normMapC_mem (ps : List RawPrompt) : ∀ (idx : Nat), ∀ q ∈ normMapC idx ps,
    (∃ p ∈ ps, p.page = some q.page) ∨ (idx : Int) < q.page := by
  induction ps with
  | nil => intro idx q hq; simp [normMapC] at hq
  | cons p rest ih =>
    intro idx q hq
    rw [normMapC] at hq
    rcases List.mem_cons.mp hq with hq | hq
    · subst hq
      cases hp : p.page with
      | some n => exact Or.inl ⟨p, by simp, by simp [hp]⟩
      | none =>
        right
        simp only [hp]
        omega
    · rcases ih (idx + 1) q hq with ⟨p2, hp2, hpage⟩ | hlt
      · exact Or.inl ⟨p2, by simp [hp2], hpage⟩
      · right
        have : ((idx : Int) + 1) ≤ ((idx + 1 : Nat) : Int) := by push_cast; omega
        omega

theorem normalizePromptsC_length_le (numPages : Nat) (ps : List RawPrompt) :
    (normalizePromptsC numPages ps).length ≤ numPages := by
  calc (normalizePromptsC numPages ps).length
      ≤ (normMapC 0 (ps.take numPages)).length := List.length_filter_le _ _
    _ = (ps.take numPages).length := normMapC_length _ 0
    _ ≤ numPages := by simp

theorem normalizePromptsC_prompt_ne (numPages : Nat) (ps : List RawPrompt) :
    ∀ q ∈ normalizePromptsC numPages ps, q.prompt ≠ "" := by
  intro q hq
  have h := (List.mem_filter.mp hq).2
  simpa using h

theorem normalizePromptsC_pos (numPages : Nat) (ps : List RawPrompt)
    (h : ∀ p ∈ ps, ∀ n : Int, p.page = some n → 0 < n) :
    ∀ q ∈ normalizePromptsC numPages ps, 0 < q.page := by
  intro q hq
  have hq2 : q ∈ normMapC 0 (ps.take numPages) := (List.mem_filter.mp hq).1
  rcases normMapC_mem (ps.take numPages) 0 q hq2 with ⟨p, hp, hpage⟩ | hlt
  · exact h p (List.mem_of_mem_take hp) q.page hpage
  · simpa using hlt

/-! ### Claim C8 -/

/-- C8, counterexample: (i) the final-version revision maps the parsed
prompts with no slice and no filter, so 20 returned prompts survive into
the book although the clamped page count is 8; (ii) the `part_001`
normalizer keeps any numeric `page` as-is, so a model `page: 0` yields a
non-positive page number in the book. -/
theorem c8_counterexample :
    promptCountA (generateBookA true ⟨none, some "Sam", some "a dragon", none, some 8⟩
        (.ok ⟨none, none, none, none, some (List.replicate 20 ⟨none, some "x"⟩)⟩)) = 20
    ∧ (clampPages (some 8)).toNat = 8
    ∧ promptsOfC (generateBookC ⟨none, some "Sam", some "a dragon", none, some 8⟩
        (.ok (some ⟨none, none, none, none, some [⟨some 0, some "x"⟩]⟩))) = [⟨0, "x"⟩]
    ∧ ¬ (0 : Int) < 0 := by
  exact ⟨by decide, by decide, by decide, by decide⟩

/-- C8, amended: the described normalization is `part_001`'s (lines
129-139): prompts are coerced to a sequence (empty when absent), sliced
to the clamped page count, entries whose `page` is not a number get their
1-based position, entries without a non-empty prompt string are filtered
out, and the result has length ≤ the clamped page count; every element's
page is positive PROVIDED every numeric page in the model output is
positive (a model `page: 0` or negative is kept as-is).  The
final-version revision applies no slice and no filter. -/
theorem c8_amended (numPages : Nat) (ps : List RawPrompt) (req : BookRequest)
    (parsed : ParsedBook)
    (hv : (strTruthy req.mainCharacter && strTruthy req.storyIdea) = true) :
    (normalizePromptsC numPages ps).length ≤ numPages
    ∧ (∀ q ∈ normalizePromptsC numPages ps, q.prompt ≠ "")
    ∧ ((∀ p ∈ ps, ∀ n : Int, p.page = some n → 0 < n) →
        ∀ q ∈ normalizePromptsC numPages ps, 0 < q.page)
    ∧ promptsOfC (generateBookC req (.ok (some parsed)))
        = normalizePromptsC (clampPages req.pageCount).toNat (parsed.prompts.getD [])
    ∧ paragraphsOfC (generateBookC req (.ok (some parsed))) = parsed.paragraphs.getD [] := by
  refine ⟨normalizePromptsC_length_le numPages ps,
    normalizePromptsC_prompt_ne numPages ps,
    normalizePromptsC_pos numPages ps, ?_, ?_⟩
  · simp [generateBookC, validC_eq_false hv, promptsOfC]
  · simp [generateBookC, validC_eq_false hv, paragraphsOfC]

/-- C8, witness for `c8_amended` at a concrete request and model
output. -/
theorem c8_amended_witness :
    (normalizePromptsC 4 [⟨none, some "x"⟩, ⟨some 2, none⟩]).length ≤ 4
    ∧ (∀ q ∈ normalizePromptsC 4 [⟨none, some "x"⟩, ⟨some 2, none⟩], 0 < q.page)
    ∧ promptsOfC (generateBookC ⟨none, some "Sam", some "a dragon", none, some 5⟩
        (.ok (some ⟨none, none, none, none, some [⟨none, some "x"⟩, ⟨some 2, none⟩]⟩)))
      = normalizePromptsC 5 [⟨none, some "x"⟩, ⟨some 2, none⟩] := by
  have h := c8_amended 4 [⟨none, some "x"⟩, ⟨some 2, none⟩]
    ⟨none, some "Sam", some "a dragon", none, some 5⟩
    ⟨none, none, none, none, some [⟨none, some "x"⟩, ⟨some 2, none⟩]⟩ (by decide)
  refine ⟨h.1, h.2.2.1 (by decide), ?_⟩
  have h5 := h.2.2.2.1
  simpa using h5

/-! ### Claim C9 -/

/-- C9, counterexample: no revision strips fence markers — the raw model
output goes to `JSON.parse` unchanged — so an output wrapped in a fenced
code block takes the parse-failure fallback path even though its
fence-stripped body parses; here `parse` plays `JSON.parse` (fenced text
is never valid JSON, so it maps the fenced string to `none`). -/
theorem c9_counterexample :
    (fun s => if s = "\x7b\"title\":\"T\"\x7d"
        then some (⟨some "T", none, none, none, none⟩ : ParsedBook) else none)
      (stripFences ("```json\n" ++ "\x7b\"title\":\"T\"\x7d" ++ "\n```"))
      = some ⟨some "T", none, none, none, none⟩
    ∧ generateBookB
        (fun s => if s = "\x7b\"title\":\"T\"\x7d"
          then some (⟨some "T", none, none, none, none⟩ : ParsedBook) else none)
        ⟨none, some "Sam", some "a dragon", none, none⟩
        (.ok ("```json\n" ++ "\x7b\"title\":\"T\"\x7d" ++ "\n```"))
      = .ok ⟨some "Your Custom Story", some "", some "",
             ["```json\n" ++ "\x7b\"title\":\"T\"\x7d" ++ "\n```"], []⟩ := by
  exact ⟨by decide, by decide⟩

/-- C9, amended: the handlers apply `JSON.parse` to the raw output
unchanged; an output that does not parse takes the degraded-shape
fallback path (in the `buildPrompt` revision) even when its fence-stripped
body would parse — fence markers are never stripped by any revision; the
prompts instead instruct the model not to emit code fences. -/
theorem c9_amended (jsonParse : String → Option ParsedBook) (req : BookRequest)
    (raw : String) (pb : ParsedBook)
    (hv : (strTruthy req.mainCharacter || strTruthy req.storyIdea) = true)
    (hraw : jsonParse raw = none)
    (hstrip : jsonParse (stripFences raw) = some pb) :
    generateBookB jsonParse req (.ok raw)
      = .ok ⟨some (jsOr req.title "Your Custom Story"), some "",
             some (jsOr req.ageRange ""), [raw], []⟩
    ∧ generateBookB jsonParse req (.ok (stripFences raw))
      = .ok ⟨pb.title, pb.tagline, pb.ageRange, pb.paragraphs.getD [], pb.prompts.getD []⟩ := by
  have hcond := validA_eq_false hv
  exact ⟨by simp [generateBookB, hcond, hraw], by simp [generateBookB, hcond, hstrip]⟩

/-- C9, witness for `c9_amended` at a concrete fenced output. -/
theorem c9_amended_witness :
    generateBookB
        (fun s => if s = "\x7b\"a\":1\x7d"
          then some (⟨some "A", none, none, none, none⟩ : ParsedBook) else none)
        ⟨some "T", some "Sam", none, none, none⟩
        (.ok ("```\n" ++ "\x7b\"a\":1\x7d" ++ "\n```"))
      = .ok ⟨some "T", some "", some "", ["```\n" ++ "\x7b\"a\":1\x7d" ++ "\n```"], []⟩ := by
  have h := (c9_amended
    (fun s => if s = "\x7b\"a\":1\x7d"
      then some (⟨some "A", none, none, none, none⟩ : ParsedBook) else none)
    ⟨some "T", some "Sam", none, none, none⟩
    ("```\n" ++ "\x7b\"a\":1\x7d" ++ "\n```")
    ⟨some "A", none, none, none, none⟩ (by decide) (by decide) (by decide)).1
  rw [h]
  decide

/-! ### Claim C10 -/

/-- C10, counterexample: the `part_001` revision (i) rejects a request
whose `storyIdea` is non-empty but whose `mainCharacter` is absent, so
rejection is NOT limited to "both absent or empty", and (ii) never
substitutes a default for a whitespace-only `storyIdea` — its template
construction embeds the trimmed empty string. -/
theorem c10_counterexample :
    generateBookC ⟨none, none, some "dragons", none, none⟩ .thrown
      = .err 400 "Missing required character or story idea."
    ∧ safeIdeaC ⟨none, some "Sam", some " ", none, none⟩ = ""
    ∧ (fallbackBookC ⟨none, some "Sam", some " ", none, none⟩).tagline
      = "A cozy story for ages 3-5 about ." := by
  exact ⟨by decide, by decide, by decide⟩

/-- C10, amended: in the final-version handler of `src/server.js` the
claim holds: a 400 occurs exactly when both `mainCharacter` and
`storyIdea` are absent or the exact empty string; a whitespace-only
`mainCharacter` passes validation and is replaced by the fixed default
only later, in `buildTemplateBook` / the try-block's `safe*`
resolution. -/
theorem c10_amended (hk : Bool) (req : BookRequest) (o : TextOutcomeA) :
    ((generateBookA hk req o).status = 400 ↔
      ((req.mainCharacter = none ∨ req.mainCharacter = some "")
        ∧ (req.storyIdea = none ∨ req.storyIdea = some "")))
    ∧ (req.mainCharacter = some " " →
        (generateBookA hk req o).status ≠ 400
        ∧ (buildTemplateBook req).mainCharacter = "a brave little hero"
        ∧ safeStr req.mainCharacter "a child with a big feeling"
          = "a child with a big feeling") := by
  constructor
  · by_cases hc : (!strTruthy req.mainCharacter && !strTruthy req.storyIdea) = true
    · have h1 : strTruthy req.mainCharacter = false := by
        cases h : strTruthy req.mainCharacter <;> simp_all
      have h2 : strTruthy req.storyIdea = false := by
        cases h : strTruthy req.storyIdea <;> simp_all
      constructor
      · intro _
        exact ⟨(strTruthy_eq_false_iff _).mp h1, (strTruthy_eq_false_iff _).mp h2⟩
      · intro _
        simp [generateBookA, hc, Resp.status]
    · have hc2 : (!strTruthy req.mainCharacter && !strTruthy req.storyIdea) = false := by
        cases h : (!strTruthy req.mainCharacter && !strTruthy req.storyIdea) <;> simp_all
      constructor
      · intro habs
        exfalso
        revert habs
        cases hk <;> cases o <;> simp [generateBookA, hc2, Resp.status]
      · intro ⟨hm, hs⟩
        exfalso
        have h1 : strTruthy req.mainCharacter = false := (strTruthy_eq_false_iff _).mpr hm
        have h2 : strTruthy req.storyIdea = false := (strTruthy_eq_false_iff _).mpr hs
        rw [h1, h2] at hc2
        simp at hc2
  · intro hmc
    have h1 : strTruthy req.mainCharacter = true := by rw [hmc]; decide
    have hc2 : (!strTruthy req.mainCharacter && !strTruthy req.storyIdea) = false := by
      simp [h1]
    refine ⟨?_, ?_, ?_⟩
    · cases hk <;> cases o <;> simp [generateBookA, hc2, Resp.status]
    · have : safeStr req.mainCharacter "a brave little hero" = "a brave little hero" := by
        rw [hmc]; decide
      simp [buildTemplateBook, this]
    · rw [hmc]; decide

/-- C10, witness for `c10_amended` at concrete requests. -/
theorem c10_amended_witness :
    (generateBookA true ⟨none, some " ", none, none, none⟩ .thrown).status ≠ 400
    ∧ (buildTemplateBook ⟨none, some " ", none, none, none⟩).mainCharacter
      = "a brave little hero"
    ∧ (generateBookA true ⟨none, none, some "", none, none⟩ .thrown).status = 400 := by
  refine ⟨((c10_amended true ⟨none, some " ", none, none, none⟩ .thrown).2 rfl).1,
    ((c10_amended true ⟨none, some " ", none, none, none⟩ .thrown).2 rfl).2.1,
    ((c10_amended true ⟨none, none, some "", none, none⟩ .thrown).1).mpr (by simp)⟩

end ColoringBook
